import Mathlib

/-!
# Verification development for the secure-biometric pipeline

Shallow embedding of the feature/gating/matching core of the repository:

* `biometric_auth.py` — profile verification (`BiometricAuthenticator`);
* `change_detector.py` — the change gate (`ChangeDetector`);
* `geometry_analyzer.py` — facial proportions and face-shape metrics;
* `mesh_generator.py` — per-triangle mesh metrics;
* `expression_analyzer.py` — expression classification;
* `depth_mapper.py` — depth-map definedness (face mask vs. interpolation).

Modelling conventions.  Coordinates, metric values and times are rationals
standing for ideal float64 values.  Euclidean norms and other square-root
valued kernels of `numpy` are irrational-valued, so they enter the model as
explicit function parameters (`norm3`, `npStd`, `sqrt3`, `GateNumerics`);
every theorem quantifies over them or fixes an instantiation that agrees
with the true kernel at the concrete input used.  Pure-Python float division
raises `ZeroDivisionError` on a zero denominator and is modelled by `pydiv`
into `Except`; numpy float64 division instead produces `inf`/`-inf`/`nan`
and is modelled by `npDiv` into the four-point type `NpFloat`.
-/

namespace Biometric

/-- Rational triple standing for one float64 3-vector (a landmark row or a
BGR color). -/
abbrev Vec3 := ℚ × ℚ × ℚ

/-- Componentwise subtraction of 3-vectors. -/
def vsub (a b : Vec3) : Vec3 := (a.1 - b.1, a.2.1 - b.2.1, a.2.2 - b.2.2)

/-- `np.mean` over a list of scalars; callers guard emptiness exactly where
the source does. -/
def meanQ (l : List ℚ) : ℚ := l.sum / l.length

/-- Exceptions raised by the pure-Python float arithmetic in
`biometric_auth.py`: `ZeroDivisionError` from `x / 0.0` and `KeyError` from
a direct `dict[key]` access on a missing key. -/
inductive PyErr where
  | zeroDivision
  | keyError
  deriving DecidableEq, Repr

/-- Pure-Python float division: `a / b` raises `ZeroDivisionError` when
`b == 0.0` (the operands in `_verify_geometry` and `_verify_pose` are plain
Python floats, not numpy scalars). -/
def pydiv (a b : ℚ) : Except PyErr ℚ :=
  if b = 0 then .error .zeroDivision else .ok (a / b)

/-- Per-metric statistics stored in a profile by `_process_geometry_data`:
`{"mean", "std", "min", "max"}`.  Only `mean` is read during verification. -/
structure MetricStats where
  mean : ℚ
  std : ℚ
  min : ℚ
  max : ℚ
  deriving DecidableEq, Repr

/-- The tolerance map built in `BiometricAuthenticator.__init__` when no
custom thresholds are supplied. -/
def defaultTolerances : List (String × ℚ) :=
  [("eye_distance", 1/10), ("mouth_width", 3/20), ("nose_to_chin", 1/10),
   ("width_ratio_temple_jaw", 1/20), ("width_ratio_cheek_jaw", 1/20),
   ("height_ratio_nose_face", 1/20), ("face_width_height_ratio", 1/20),
   ("nose_angle", 5), ("left_eye_angle", 5), ("right_eye_angle", 5),
   ("mouth_symmetry_angle", 5),
   ("pitch", 15), ("yaw", 15), ("roll", 15),
   ("color_tolerance", 25)]

/-- The scoring loop of `_verify_geometry` (lines 127-141): iterate over the
profile metrics in order, skip a metric missing from the live data, look the
tolerance up with default `0.1`, and score
`max(0.0, 1.0 - diff / (profile_mean * threshold))`.  The division is plain
Python, so a zero denominator aborts the whole call with
`ZeroDivisionError`. -/
def geometryScores (thr : List (String × ℚ)) :
    List (String × MetricStats) → List (String × ℚ) → Except PyErr (List ℚ)
  | [], _ => .ok []
  | (m, st) :: rest, current =>
    match current.lookup m with
    | none => geometryScores thr rest current
    | some cv =>
      let t := (thr.lookup m).getD (1/10)
      match pydiv |cv - st.mean| (st.mean * t) with
      | .error e => .error e
      | .ok q =>
        match geometryScores thr rest current with
        | .error e => .error e
        | .ok tl => .ok (max 0 (1 - q) :: tl)

/-- Result dictionary of one category verifier.  `missing` records whether
the `"error": "Missing ... data"` key was set (the dictionary still always
carries `"match_score"`). -/
structure CategoryResult where
  match_score : ℚ
  missing : Bool
  deriving DecidableEq, Repr

/-- Result of `_verify_geometry`, additionally carrying the
`"metric_scores"` zip of profile keys with the collected scores. -/
structure GeometryResult where
  match_score : ℚ
  metric_scores : List (String × ℚ)
  missing : Bool
  deriving DecidableEq, Repr

/-- `BiometricAuthenticator._verify_geometry` (lines 122-146).  A falsy
(absent or empty) geometry section on either side yields score `0.0` with a
missing-data error entry; otherwise the mean of the collected per-metric
scores (`0.0` if every metric was skipped). -/
def verify_geometry (thr : List (String × ℚ)) (profile : List (String × MetricStats))
    (current : List (String × ℚ)) : Except PyErr GeometryResult :=
  if profile.isEmpty || current.isEmpty then .ok ⟨0, [], true⟩
  else
    match geometryScores thr profile current with
    | .error e => .error e
    | .ok scores =>
      .ok ⟨if scores.isEmpty then 0 else meanQ scores,
           (profile.map (fun p => p.1)).zip scores, false⟩

/-- Per-axis statistics stored for the head pose:
`{"mean", "std", "range"}`. -/
structure PoseStats where
  mean : ℚ
  std : ℚ
  range : ℚ
  deriving DecidableEq, Repr

/-- Profile pose section: the three axes written by `_process_pose_data`
(an axis absent from the dictionary is `none`). -/
structure PoseProfile where
  pitch : Option PoseStats
  yaw : Option PoseStats
  roll : Option PoseStats
  deriving DecidableEq, Repr

/-- Live pose section: per-axis angles, absent axes `none`. -/
structure PoseCurrent where
  pitch : Option ℚ
  yaw : Option ℚ
  roll : Option ℚ
  deriving DecidableEq, Repr

def PoseProfile.axis (p : PoseProfile) : String → Option PoseStats
  | "pitch" => p.pitch
  | "yaw" => p.yaw
  | "roll" => p.roll
  | _ => none

def PoseCurrent.axis (p : PoseCurrent) : String → Option ℚ
  | "pitch" => p.pitch
  | "yaw" => p.yaw
  | "roll" => p.roll
  | _ => none

/-- The axis loop of `_verify_pose` (lines 153-161): for each of
`["pitch", "yaw", "roll"]` skip the axis unless present on both sides, read
`tolerance_thresholds[axis]` (a bare dict access: `KeyError` when absent)
and score `max(0.0, 1.0 - diff / threshold)` with plain Python division. -/
def poseScores (thr : List (String × ℚ)) (pp : PoseProfile) (cp : PoseCurrent) :
    List String → Except PyErr (List ℚ)
  | [] => .ok []
  | a :: rest =>
    match cp.axis a, pp.axis a with
    | some cv, some st =>
      match thr.lookup a with
      | none => .error .keyError
      | some t =>
        match pydiv |cv - st.mean| t with
        | .error e => .error e
        | .ok q =>
          match poseScores thr pp cp rest with
          | .error e => .error e
          | .ok tl => .ok (max 0 (1 - q) :: tl)
    | _, _ => poseScores thr pp cp rest

/-- A falsy pose argument: `None`, or (as a dictionary) empty — in this
model a record whose three axes are all absent. -/
def poseFalsyP : Option PoseProfile → Bool
  | none => true
  | some p => p.pitch.isNone && p.yaw.isNone && p.roll.isNone

def poseFalsyC : Option PoseCurrent → Bool
  | none => true
  | some p => p.pitch.isNone && p.yaw.isNone && p.roll.isNone

/-- `BiometricAuthenticator._verify_pose` (lines 148-166). -/
def verify_pose (thr : List (String × ℚ)) (pp : Option PoseProfile)
    (cp : Option PoseCurrent) : Except PyErr CategoryResult :=
  if poseFalsyP pp || poseFalsyC cp then .ok ⟨0, true⟩
  else
    match pp, cp with
    | some p, some c =>
      match poseScores thr p c ["pitch", "yaw", "roll"] with
      | .error e => .error e
      | .ok scores => .ok ⟨if scores.isEmpty then 0 else meanQ scores, false⟩
    | _, _ => .ok ⟨0, true⟩

/-- Profile color section written by `_process_color_data`: per-channel
mean and standard deviation. -/
structure ColorStats where
  mean : Vec3
  std : Vec3
  deriving DecidableEq, Repr

/-- `BiometricAuthenticator._verify_color` (lines 168-183).  `norm3` stands
for `np.linalg.norm` on the BGR difference and `sqrt3` for `np.sqrt(3)`.
The division is numpy float64: a zero denominator produces `inf` (positive
difference) or `nan` (zero difference), and in either case the surrounding
Python `max(0.0, 1.0 - ...)` evaluates to `0.0`, which the `if` branch
records directly. -/
def verify_color (norm3 : Vec3 → ℚ) (sqrt3 : ℚ) (thr : List (String × ℚ))
    (pc : Option ColorStats) (cc : Option Vec3) : Except PyErr CategoryResult :=
  match pc, cc with
  | some p, some c =>
    match thr.lookup "color_tolerance" with
    | none => .error .keyError
    | some t =>
      let d := norm3 (vsub c p.mean)
      .ok ⟨if t * sqrt3 = 0 then 0 else max 0 (1 - d / (t * sqrt3)), false⟩
  | _, _ => .ok ⟨0, true⟩

/-- A stored biometric profile: the three sections created by
`create_biometric_profile` (each `None` when its enrollment data was
empty; geometry `None`/`{}` both modelled by the empty list). -/
structure Profile where
  geometry : List (String × MetricStats)
  pose : Option PoseProfile
  color : Option ColorStats
  deriving DecidableEq, Repr

/-- One live feature set handed to verification. -/
structure LiveData where
  geometry : List (String × ℚ)
  pose : Option PoseCurrent
  color : Option Vec3
  deriving DecidableEq, Repr

/-- Return value of `verify_biometric`: either the immediate
missing-data reject `(False, {"error": "Missing profile or current data"})`
— which carries no `overall_score` and no category scores — or a scored
decision `(accept, {"overall_score": ..., "details": ...})`. -/
inductive Verdict where
  | missingData
  | scored (accept : Bool) (overall : ℚ) (geometry pose color : ℚ)
  deriving DecidableEq, Repr

/-- `BiometricAuthenticator.verify_biometric` (lines 89-120).  A falsy
(absent/empty) profile or live argument is rejected before any scoring.
Otherwise all three category verifiers run (each result dictionary always
contains `"match_score"`, even in its internal missing-data case, so all
three scores enter the mean) and the decision is
`overall_score >= 0.8`. -/
def verify_biometric (norm3 : Vec3 → ℚ) (sqrt3 : ℚ) (thr : List (String × ℚ)) :
    Option Profile → Option LiveData → Except PyErr Verdict
  | some p, some c =>
    match verify_geometry thr p.geometry c.geometry with
    | .error e => .error e
    | .ok g =>
      match verify_pose thr p.pose c.pose with
      | .error e => .error e
      | .ok ps =>
        match verify_color norm3 sqrt3 thr p.color c.color with
        | .error e => .error e
        | .ok cl =>
          let overall := meanQ [g.match_score, ps.match_score, cl.match_score]
          .ok (.scored (decide (4/5 ≤ overall)) overall
                g.match_score ps.match_score cl.match_score)
  | _, _ => .ok .missingData

/-! ## Change gate (`change_detector.py`) -/

/-- One head-pose record handed to the gate. -/
structure Pose3 where
  pitch : ℚ
  yaw : ℚ
  roll : ℚ
  deriving DecidableEq, Repr

/-- The threshold dictionary a `ChangeDetector` is constructed with
(`settings.py` supplies the production values). -/
structure GateConfig where
  minFrameInterval : ℚ
  maxStoredFrames : ℕ
  landmarkThreshold : ℚ
  expressionMetrics : List (String × ℚ)
  posePitch : ℚ
  poseYaw : ℚ
  poseRoll : ℚ

/-- Square-root valued kernels of the gate, kept abstract over the landmark
representation `L`: `landmarkChange cur prev` is the finite value of
`calculate_landmark_change` when a previous set exists (mean per-point norm
over the bounding-box diagonal), and `exprDelta cur prev k` is
`expression_changes.get(k, 0)` — the absolute per-metric delta for the three
computed expression metrics and `0` for any other key. -/
structure GateNumerics (L : Type) where
  landmarkChange : L → L → ℚ
  exprDelta : L → L → String → ℚ

/-- Mutable state of one `ChangeDetector` instance. -/
structure GateState (L : Type) where
  lastLandmarks : Option L
  lastPose : Option Pose3
  lastSaveTime : Option ℚ
  frameCount : ℕ
  deriving Repr

/-- The state set up by `ChangeDetector.__init__`. -/
def GateState.start {L : Type} : GateState L := ⟨none, none, none, 0⟩

/-- `ChangeDetector.calculate_landmark_change` (lines 16-28): `float('inf')`
when no previous landmarks exist, otherwise the finite normalized mean
displacement. -/
def calculate_landmark_change {L : Type} (num : GateNumerics L) (cur : L) :
    Option L → WithTop ℚ
  | none => ⊤
  | some prev => (num.landmarkChange cur prev : WithTop ℚ)

/-- The expression trigger of `should_save_frame` (lines 96-107): with a
last-admitted set, any configured expression metric whose absolute delta
exceeds its threshold; without one, forced `True` ("first frame should be
saved"). -/
def gateExprChanged {L : Type} (cfg : GateConfig) (num : GateNumerics L)
    (landmarks : L) : Option L → Bool
  | some prev =>
    cfg.expressionMetrics.any
      (fun kv => decide (|num.exprDelta landmarks prev kv.1| > kv.2))
  | none => true

/-- The pose trigger of `should_save_frame` (lines 109-119): only when both
a last-admitted pose and a current pose exist, any axis delta exceeding its
per-axis threshold. -/
def gatePoseChanged (cfg : GateConfig) : Option Pose3 → Option Pose3 → Bool
  | some lp, some hp =>
    decide (|hp.pitch - lp.pitch| > cfg.posePitch) ||
    decide (|hp.yaw - lp.yaw| > cfg.poseYaw) ||
    decide (|hp.roll - lp.roll| > cfg.poseRoll)
  | _, _ => false

/-- The `should_save` disjunction (lines 122-126). -/
def gateTrigger {L : Type} (cfg : GateConfig) (num : GateNumerics L)
    (s : GateState L) (landmarks : L) (head_pose : Option Pose3) : Bool :=
  decide (calculate_landmark_change num landmarks s.lastLandmarks >
    (cfg.landmarkThreshold : WithTop ℚ)) ||
  gatePoseChanged cfg s.lastPose head_pose ||
  gateExprChanged cfg num landmarks s.lastLandmarks

/-- `ChangeDetector.should_save_frame` (lines 75-134), with `datetime.now()`
made an explicit `now` argument.  Order of the checks follows the source:
rate limit first, then the capacity ceiling, then the three significance
triggers combined with `or`; on admission the whole state is replaced and
the frame counter incremented. -/
def should_save_frame {L : Type} (cfg : GateConfig) (num : GateNumerics L)
    (s : GateState L) (landmarks : L) (head_pose : Option Pose3) (now : ℚ) :
    Bool × GateState L :=
  if s.lastSaveTime.elim false (fun t0 => decide (now - t0 < cfg.minFrameInterval)) then
    (false, s)
  else if cfg.maxStoredFrames ≤ s.frameCount then
    (false, s)
  else if gateTrigger cfg num s landmarks head_pose then
    (true, ⟨some landmarks, head_pose, some now, s.frameCount + 1⟩)
  else
    (false, s)

/-- Feeding a sequence of `(landmarks, head_pose, now)` observations through
one gate instance. -/
def runGate {L : Type} (cfg : GateConfig) (num : GateNumerics L) :
    GateState L → List (L × Option Pose3 × ℚ) → GateState L
  | s, [] => s
  | s, (lm, hp, t) :: rest => runGate cfg num (should_save_frame cfg num s lm hp t).2 rest

/-! ## NumPy float64 edge values -/

/-- A numpy float64 as the analysis code can produce it: a finite (ideal)
value, an infinity, or `nan`. -/
inductive NpFloat where
  | fin (q : ℚ)
  | inf
  | ninf
  | nan
  deriving DecidableEq, Repr

def NpFloat.isFinite : NpFloat → Bool
  | .fin _ => true
  | _ => false

/-- Numpy float64 division of finite operands: a nonzero denominator divides
exactly; a zero denominator yields `inf`, `-inf` or `nan` by the numerator's
sign — a `RuntimeWarning`, never an exception. -/
def npDiv (a b : ℚ) : NpFloat :=
  if b = 0 then (if 0 < a then .inf else if a < 0 then .ninf else .nan)
  else .fin (a / b)

/-- `1.0 - x` on a numpy float64. -/
def NpFloat.oneSub : NpFloat → NpFloat
  | .fin q => .fin (1 - q)
  | .inf => .ninf
  | .ninf => .inf
  | .nan => .nan

/-! ## Landmark geometry engine (`geometry_analyzer.py`) -/

/-- The feature-index regions the embedded functions read
(`FEATURE_INDICES` rows of the landmark detector). -/
structure FeatureIndices where
  face_contour : List ℕ
  left_eye : List ℕ
  right_eye : List ℕ
  nose_bridge : List ℕ
  mouth : List ℕ
  nose_tip : ℕ

/-- Fancy indexing `landmarks[indices]`; the landmark array is modelled as a
total function on indices. -/
def pick (lm : ℕ → Vec3) (idx : List ℕ) : List Vec3 := idx.map lm

def xsOf (pts : List Vec3) : List ℚ := pts.map (fun p => p.1)

def ysOf (pts : List Vec3) : List ℚ := pts.map (fun p => p.2.1)

/-- `np.max` over a nonempty array (the sources only apply it to feature
regions, which are nonempty). -/
def npMax : List ℚ → ℚ
  | [] => 0
  | h :: t => t.foldl max h

def npMin : List ℚ → ℚ
  | [] => 0
  | h :: t => t.foldl min h

/-- `np.mean(points, axis=0)`: the componentwise centroid. -/
def centroid (pts : List Vec3) : Vec3 :=
  (meanQ (xsOf pts), meanQ (ysOf pts), meanQ (pts.map (fun p => p.2.2)))

/-- Bounding-box width of the face-contour points (line 55). -/
def faceWidth (fi : FeatureIndices) (lm : ℕ → Vec3) : ℚ :=
  npMax (xsOf (pick lm fi.face_contour)) - npMin (xsOf (pick lm fi.face_contour))

/-- Bounding-box height of the face-contour points (line 56). -/
def faceHeight (fi : FeatureIndices) (lm : ℕ → Vec3) : ℚ :=
  npMax (ysOf (pick lm fi.face_contour)) - npMin (ysOf (pick lm fi.face_contour))

/-- The four ratios returned by `calculate_proportions`. -/
structure Proportions where
  width_height_ratio : NpFloat
  eye_spacing_ratio : NpFloat
  nose_face_ratio : NpFloat
  mouth_face_ratio : NpFloat
  deriving DecidableEq, Repr

/-- `GeometryAnalyzer.calculate_proportions` (lines 42-75).  `norm3` stands
for `np.linalg.norm` on 3-vectors.  Every ratio is a direct float division
(`npDiv` — no denominator check appears in the source). -/
def calculate_proportions (norm3 : Vec3 → ℚ) (fi : FeatureIndices)
    (lm : ℕ → Vec3) : Proportions :=
  let fw := faceWidth fi lm
  let fh := faceHeight fi lm
  let leftEye := centroid (pick lm fi.left_eye)
  let rightEye := centroid (pick lm fi.right_eye)
  let eyeDistance := norm3 (vsub rightEye leftEye)
  let nb := pick lm fi.nose_bridge
  let noseLength := norm3 (vsub (nb.getLastD (0, 0, 0)) (nb.headD (0, 0, 0)))
  let mp := pick lm fi.mouth
  let mouthWidth := norm3 (vsub (mp.headD (0, 0, 0)) (mp.getD 1 (0, 0, 0)))
  { width_height_ratio := npDiv fw fh
    eye_spacing_ratio := npDiv eyeDistance fw
    nose_face_ratio := npDiv noseLength fh
    mouth_face_ratio := npDiv mouthWidth fw }

/-- Face-shape metrics of `analyze_face_shape` (lines 104-134).  `jaw_angle`
(an `arccos`-valued kernel no claim refers to) is not modelled. -/
structure FaceShape where
  jaw_width : ℚ
  roundness : NpFloat
  deriving DecidableEq, Repr

/-- `GeometryAnalyzer.analyze_face_shape` (lines 104-134).  `npStd` stands
for `np.std` (square-root valued).  `roundness` is
`1.0 - np.std(distances) / np.mean(distances)` — again an unchecked float
division. -/
def analyze_face_shape (norm3 : Vec3 → ℚ) (npStd : List ℚ → ℚ)
    (fi : FeatureIndices) (lm : ℕ → Vec3) : FaceShape :=
  let contour := pick lm fi.face_contour
  let center := centroid contour
  let distances := contour.map (fun p => norm3 (vsub p center))
  { jaw_width := norm3 (vsub (contour.headD (0, 0, 0)) (contour.getLastD (0, 0, 0)))
    roundness := (npDiv (npStd distances) (meanQ distances)).oneSub }

/-! ## Mesh metrics (`mesh_generator.py`) -/

/-- Cross product of two 3-vectors (`np.cross`). -/
def cross (v w : Vec3) : Vec3 :=
  (v.2.1 * w.2.2 - v.2.2 * w.2.1,
   v.2.2 * w.1 - v.1 * w.2.2,
   v.1 * w.2.1 - v.2.1 * w.1)

/-- One row of the face metrics: the triangle's area and its unit normal as
`_calculate_face_metrics` computes them. -/
structure TriMetric where
  area : ℚ
  normal : NpFloat × NpFloat × NpFloat
  deriving DecidableEq, Repr

/-- Per-triangle computation of `MeshGenerator._calculate_face_metrics`
(lines 100-108): edge vectors from vertex 0, their cross product, area =
half its norm, and the normal obtained by dividing the cross product by its
norm — unconditionally, so a degenerate triangle divides the zero vector by
`0.0` (numpy: `nan` components plus a `RuntimeWarning`). -/
def face_metric (norm3 : Vec3 → ℚ) (a b c : Vec3) : TriMetric :=
  let v1 := vsub b a
  let v2 := vsub c a
  let n := cross v1 v2
  let m := norm3 n
  { area := m / 2
    normal := (npDiv n.1 m, npDiv n.2.1 m, npDiv n.2.2 m) }

/-- The vectorized loop over all mesh faces. -/
def calculate_face_metrics (norm3 : Vec3 → ℚ) (vertices : ℕ → Vec3)
    (faces : List (ℕ × ℕ × ℕ)) : List TriMetric :=
  faces.map (fun f => face_metric norm3 (vertices f.1) (vertices f.2.1) (vertices f.2.2))

/-! ## Expression classifier (`expression_analyzer.py`) -/

inductive Expression where
  | neutral
  | smile
  | frown
  | surprise
  | squint
  deriving DecidableEq, Repr

/-- One computed set of expression metrics: `_calculate_expression_metrics`
always writes exactly these five keys. -/
structure ExpressionMetrics where
  mouth_openness : ℚ
  mouth_width_ratio : ℚ
  left_eye_openness : ℚ
  right_eye_openness : ℚ
  brow_height : ℚ
  deriving DecidableEq, Repr

/-- Keyed access `metrics[key]` on a computed metric set (`none` for a key
the metrics dictionary does not contain). -/
def metricVal (m : ExpressionMetrics) : String → Option ℚ
  | "mouth_openness" => some m.mouth_openness
  | "mouth_width_ratio" => some m.mouth_width_ratio
  | "left_eye_openness" => some m.left_eye_openness
  | "right_eye_openness" => some m.right_eye_openness
  | "brow_height" => some m.brow_height
  | _ => none

def smileChars : List (String × ℚ) :=
  [("mouth_width_ratio", 6/5), ("mouth_openness", 3/10), ("brow_height", 0)]

def frownChars : List (String × ℚ) :=
  [("mouth_width_ratio", 4/5), ("mouth_openness", -(1/5)), ("brow_height", -(1/5))]

def surpriseChars : List (String × ℚ) :=
  [("mouth_openness", 1/2), ("brow_height", 3/10)]

def squintChars : List (String × ℚ) :=
  [("left_eye_openness", -(3/10)), ("right_eye_openness", -(3/10)), ("brow_height", -(1/10))]

/-- The `characteristics` table of `_classify_expression` (lines 137-157),
in its Python insertion order. -/
def characteristics : List (Expression × List (String × ℚ)) :=
  [(.smile, smileChars), (.frown, frownChars), (.surprise, surpriseChars),
   (.squint, squintChars)]

/-- `ExpressionAnalyzer._calculate_expression_score` (lines 202-215):
`1 - mean |metric - target|` over the characteristic keys present in the
metric set, `0.0` when none is. -/
def calculate_expression_score (m : ExpressionMetrics) (chars : List (String × ℚ)) : ℚ :=
  let diffs := chars.filterMap (fun kt => (metricVal m kt.1).map (fun v => |v - kt.2|))
  if diffs.isEmpty then 0 else 1 - meanQ diffs

/-- Python's two-argument `max` keyed on the score: keeps the current
element unless the candidate is strictly greater (so ties keep the earlier
element). -/
def pyMaxPair (b p : Expression × ℚ) : Expression × ℚ :=
  if p.2 > b.2 then p else b

/-- `ExpressionAnalyzer._classify_expression` (lines 125-171): score every
expression of the table, take the maximum score; below the neutral
threshold classify `neutral` with confidence `1 - max`, otherwise the
arg-max expression (first in table order on ties, as Python's `max`) with
the score as confidence. -/
def classify_expression (neutralThreshold : ℚ) (m : ExpressionMetrics) :
    Expression × ℚ :=
  let scores := characteristics.map (fun ec => (ec.1, calculate_expression_score m ec.2))
  let maxScore := npMax (scores.map (fun p => p.2))
  if maxScore < neutralThreshold then (.neutral, 1 - maxScore)
  else
    match scores with
    | [] => (.neutral, 1 - maxScore)
    | s0 :: rest => ((rest.foldl pyMaxPair s0).1, maxScore)

/-- The classification rule in the specification's words: maximum of the
four per-expression scores, neutral with confidence `1 - max` below the
threshold, otherwise the arg-max expression with ties broken by the fixed
enumeration order smile > frown > surprise > squint. -/
def specClassify (neutralThreshold : ℚ) (m : ExpressionMetrics) :
    Expression × ℚ :=
  let ss := calculate_expression_score m smileChars
  let sf := calculate_expression_score m frownChars
  let su := calculate_expression_score m surpriseChars
  let sq := calculate_expression_score m squintChars
  let mx := max ss (max sf (max su sq))
  if mx < neutralThreshold then (.neutral, 1 - mx)
  else if ss = mx then (.smile, mx)
  else if sf = mx then (.frown, mx)
  else if su = mx then (.surprise, mx)
  else (.squint, mx)

/-- C8: `_classify_expression` implements exactly the specification's rule:
below the neutral threshold it returns NEUTRAL with confidence
`1 − max_score`, otherwise the arg-max expression with the maximal score as
confidence, ties broken by the fixed order smile > frown > surprise >
squint. -/
theorem classify_matches_spec (thr : ℚ) (m : ExpressionMetrics) :
    classify_expression thr m = specClassify thr m := by
  unfold classify_expression specClassify
  simp only [characteristics, List.map_cons, List.map_nil, npMax, List.foldl]
  set a := calculate_expression_score m smileChars with ha
  set b := calculate_expression_score m frownChars with hb
  set c := calculate_expression_score m surpriseChars with hc
  set d := calculate_expression_score m squintChars with hd
  have hmx : max (max (max a b) c) d = max a (max b (max c d)) := by
    rw [max_assoc, max_assoc]
  rw [hmx]
  by_cases hth : max a (max b (max c d)) < thr
  · rw [if_pos hth, if_pos hth]
  · rw [if_neg hth, if_neg hth]
    by_cases h1 : b > a
    · by_cases h2 : c > b
      · by_cases h3 : d > c
        · simp only [pyMaxPair, if_pos h1, if_pos h2, if_pos h3]
          rw [max_eq_right h3.le, max_eq_right (h2.trans h3).le,
            max_eq_right (h1.trans (h2.trans h3)).le,
            if_neg (ne_of_lt (h1.trans (h2.trans h3))),
            if_neg (ne_of_lt (h2.trans h3)), if_neg (ne_of_lt h3)]
        · simp only [pyMaxPair, if_pos h1, if_pos h2, if_neg h3]
          rw [max_eq_left (not_lt.mp h3), max_eq_right h2.le,
            max_eq_right (h1.trans h2).le,
            if_neg (ne_of_lt (h1.trans h2)), if_neg (ne_of_lt h2), if_pos rfl]
      · simp only [pyMaxPair, if_pos h1, if_neg h2]
        by_cases h3 : d > b
        · simp only [if_pos h3]
          rw [max_eq_right (lt_of_le_of_lt (not_lt.mp h2) h3).le,
            max_eq_right h3.le, max_eq_right (h1.trans h3).le,
            if_neg (ne_of_lt (h1.trans h3)), if_neg (ne_of_lt h3),
            if_neg (ne_of_lt (lt_of_le_of_lt (not_lt.mp h2) h3))]
        · simp only [if_neg h3]
          rw [max_eq_left (max_le (not_lt.mp h2) (not_lt.mp h3)),
            max_eq_right h1.le, if_neg (ne_of_lt h1), if_pos rfl]
    · by_cases h2 : c > a
      · by_cases h3 : d > c
        · simp only [pyMaxPair, if_neg h1, if_pos h2, if_pos h3]
          rw [max_eq_right h3.le,
            max_eq_right (lt_of_le_of_lt (not_lt.mp h1) (h2.trans h3)).le,
            max_eq_right (h2.trans h3).le,
            if_neg (ne_of_lt (h2.trans h3)),
            if_neg (ne_of_lt (lt_of_le_of_lt (not_lt.mp h1) (h2.trans h3))),
            if_neg (ne_of_lt h3)]
        · simp only [pyMaxPair, if_neg h1, if_pos h2, if_neg h3]
          rw [max_eq_left (not_lt.mp h3),
            max_eq_right (lt_of_le_of_lt (not_lt.mp h1) h2).le,
            max_eq_right h2.le, if_neg (ne_of_lt h2),
            if_neg (ne_of_lt (lt_of_le_of_lt (not_lt.mp h1) h2)), if_pos rfl]
      · simp only [pyMaxPair, if_neg h1, if_neg h2]
        by_cases h3 : d > a
        · simp only [if_pos h3]
          rw [max_eq_right (lt_of_le_of_lt (not_lt.mp h2) h3).le,
            max_eq_right (lt_of_le_of_lt (not_lt.mp h1) h3).le,
            max_eq_right h3.le, if_neg (ne_of_lt h3),
            if_neg (ne_of_lt (lt_of_le_of_lt (not_lt.mp h1) h3)),
            if_neg (ne_of_lt (lt_of_le_of_lt (not_lt.mp h2) h3))]
        · simp only [if_neg h3]
          rw [max_eq_left (max_le (not_lt.mp h1)
            (max_le (not_lt.mp h2) (not_lt.mp h3))), if_pos rfl]

/-! ## Depth-map definedness (`depth_mapper.py`)

The depth map's defined/NaN pattern is modelled geometrically over ℚ²:
`scipy.interpolate.griddata(method='linear', fill_value=nan)` yields a value
exactly on the convex hull of the scatter points (its documented behavior:
barycentric interpolation over the Delaunay triangulation, `nan` outside),
`method='nearest'` yields a value everywhere once at least one point
exists, and `cv2.fillConvexPoly` rasterization is idealized as exact
membership in the convex hull of the polygon points.  Depth *values* are
not modelled (the claims concern only definedness), and the final Gaussian
smoothing step (lines 94-101) writes smoothed values back only at
`valid_mask`, leaving the defined set unchanged. -/

abbrev Pt2 := ℚ × ℚ

def ptSet (l : List Pt2) : Set Pt2 := {p | p ∈ l}

/-- Membership in the convex hull of a finite point list. -/
def inHull (l : List Pt2) (p : Pt2) : Prop := p ∈ convexHull ℚ (ptSet l)

/-- The fixed forehead indices of `_create_face_mask` (line 24). -/
def foreheadIdx : List ℕ := [10, 108, 67, 69, 104, 151, 337, 299, 333, 297, 338]

/-- A `DepthMapper` instance: capture image size and feature indices. -/
structure DepthMapper where
  image_width : ℚ
  image_height : ℚ
  fi : FeatureIndices

/-- The rescaling applied to landmark xy positions in `create_depth_map`
(lines 76-78): multiply by `resolution / image_size` per axis. -/
def scaleToGrid (d : DepthMapper) (resW resH : ℚ) (p : Pt2) : Pt2 :=
  (p.1 * (resW / d.image_width), p.2 * (resH / d.image_height))

/-- The scatter points handed to `griddata`: all `n` landmark xy positions
rescaled to the grid resolution. -/
def gridPoints (d : DepthMapper) (resW resH : ℚ) (lm : ℕ → Pt2) (n : ℕ) : List Pt2 :=
  (List.range n).map (fun i => scaleToGrid d resW resH (lm i))

/-- The polygon points of the face mask.  `_create_face_mask` receives the
ALREADY rescaled points (line 81) and rescales its hull points by
`resolution / image_size` a second time (lines 35-36), so the mask polygon
lives at twice-scaled coordinates. -/
def maskPolyPoints (d : DepthMapper) (resW resH : ℚ) (lm : ℕ → Pt2) : List Pt2 :=
  (d.fi.face_contour ++ foreheadIdx).map
    (fun i => scaleToGrid d resW resH (scaleToGrid d resW resH (lm i)))

/-- A grid cell lies in the face mask (idealized rasterization of
`cv2.fillConvexPoly` over the convex hull of the mask polygon points). -/
def inMask (d : DepthMapper) (resW resH : ℚ) (lm : ℕ → Pt2) (p : Pt2) : Prop :=
  inHull (maskPolyPoints d resW resH lm) p

/-- A grid cell where the linear interpolation stage is defined: the convex
hull of the scatter points. -/
def linearDefined (d : DepthMapper) (resW resH : ℚ) (lm : ℕ → Pt2) (n : ℕ)
    (p : Pt2) : Prop :=
  inHull (gridPoints d resW resH lm n) p

/-- A cell of the returned depth map holds a defined (non-NaN) value: the
linear stage covered it, or it was `nan` but inside the face mask and the
nearest-neighbor fill (lines 87-92) supplied a value — which it does
wherever at least one scatter point exists.  The smoothing step preserves
this set. -/
def depthDefined (d : DepthMapper) (resW resH : ℚ) (lm : ℕ → Pt2) (n : ℕ)
    (p : Pt2) : Prop :=
  linearDefined d resW resH lm n p ∨ (inMask d resW resH lm p ∧ 0 < n)

/-! ## Theorems about the matcher -/

/-- C2: a call to `verify_biometric` with an absent (missing/empty) profile
or live argument returns the immediate missing-data reject, a verdict
distinct by construction from any scored rejection and carrying no match
score. -/
theorem verify_missing_data (norm3 : Vec3 → ℚ) (sqrt3 : ℚ) (thr : List (String × ℚ))
    (profile : Option Profile) (current : Option LiveData)
    (h : profile = none ∨ current = none) :
    verify_biometric norm3 sqrt3 thr profile current = .ok .missingData := by
  rcases h with h | h
  · subst h; cases current <;> rfl
  · subst h; cases profile <;> rfl

/-- Witness for C2 at a concrete call. -/
theorem verify_missing_data_witness :
    verify_biometric (fun _ => 0) 0 [] none (some ⟨[], none, none⟩) = .ok .missingData :=
  verify_missing_data (fun _ => 0) 0 [] none (some ⟨[], none, none⟩) (Or.inl rfl)

/-- C5: a geometry metric present on both sides with configured tolerance
`t` (and a nonvanishing denominator, which the claimed formula presupposes)
scores `max(0, 1 − |live − mean| / (mean·t))`; a metric absent from the
live side is skipped, not penalized; and the spec's worked example scores
`3/13 ≈ 0.23`. -/
theorem geometry_metric_score (thr : List (String × ℚ))
    (profile : List (String × MetricStats)) (current : List (String × ℚ))
    (m : String) (st : MetricStats) (cv t : ℚ) (tl : List ℚ)
    (hlk : current.lookup m = some cv)
    (ht : thr.lookup m = some t)
    (hden : st.mean * t ≠ 0)
    (htl : geometryScores thr profile current = .ok tl) :
    geometryScores thr ((m, st) :: profile) current =
      .ok (max 0 (1 - |cv - st.mean| / (st.mean * t)) :: tl)
    ∧ (∀ (m2 : String) (st2 : MetricStats) (rest : List (String × MetricStats)),
        current.lookup m2 = none →
        geometryScores thr ((m2, st2) :: rest) current = geometryScores thr rest current)
    ∧ geometryScores [("width_height_ratio", 1/20)]
        [("width_height_ratio", ⟨13/10, 1/50, 32/25, 133/100⟩)]
        [("width_height_ratio", 27/20)] = .ok [3/13]
    ∧ |(3 : ℚ)/13 - 23/100| < 1/100 := by
  refine ⟨?_, ?_, ?_, ?_⟩
  · simp [geometryScores, hlk, ht, pydiv, hden, htl]
  · intro m2 st2 rest h
    simp [geometryScores, h]
  · simp only [geometryScores, List.lookup, pydiv]
    norm_num
    rw [show |(1 : ℚ)/20| = 1/20 from abs_of_pos (by norm_num),
      max_eq_right (by norm_num)]
    norm_num
  · rw [show (3 : ℚ)/13 - 23/100 = 1/1300 by norm_num, abs_of_pos] <;> norm_num

/-- Witness for C5 at the spec's worked example. -/
theorem geometry_metric_score_witness :
    geometryScores [("width_height_ratio", 1/20)]
      (("width_height_ratio", (⟨13/10, 1/50, 32/25, 133/100⟩ : MetricStats)) :: [])
      [("width_height_ratio", 27/20)] =
      .ok (max 0 (1 - |(27 : ℚ)/20 - (13 : ℚ)/10| / ((13 : ℚ)/10 * (1/20))) :: []) :=
  (geometry_metric_score [("width_height_ratio", 1/20)] [] [("width_height_ratio", 27/20)]
    "width_height_ratio" ⟨13/10, 1/50, 32/25, 133/100⟩ (27/20) (1/20) []
    rfl rfl (by norm_num) rfl).1

/-- C10: a geometry metric present on both sides but absent from the
tolerance map is neither skipped nor a configuration error: it is scored
with the hard-coded default tolerance `0.1`, and its score enters the
geometry category mean. -/
theorem default_tolerance_metric (thr : List (String × ℚ))
    (profile : List (String × MetricStats)) (current : List (String × ℚ))
    (m : String) (st : MetricStats) (cv : ℚ) (tl : List ℚ)
    (hthr : thr.lookup m = none)
    (hlk : current.lookup m = some cv)
    (hmean : st.mean ≠ 0)
    (htl : geometryScores thr profile current = .ok tl) :
    geometryScores thr ((m, st) :: profile) current =
      .ok (max 0 (1 - |cv - st.mean| / (st.mean * (1/10))) :: tl)
    ∧ verify_geometry thr ((m, st) :: profile) current =
        .ok ⟨meanQ (max 0 (1 - |cv - st.mean| / (st.mean * (1/10))) :: tl),
             (((m, st) :: profile).map (fun q => q.1)).zip
               (max 0 (1 - |cv - st.mean| / (st.mean * (1/10))) :: tl),
             false⟩ := by
  have hden : st.mean * (1/10) ≠ 0 := by
    intro hz
    rcases mul_eq_zero.mp hz with hz | hz
    · exact hmean hz
    · norm_num at hz
  have h1 : geometryScores thr ((m, st) :: profile) current =
      .ok (max 0 (1 - |cv - st.mean| / (st.mean * (1/10))) :: tl) := by
    simp [geometryScores, hlk, hthr, pydiv, hden, hmean, htl]
  refine ⟨h1, ?_⟩
  cases hc : current with
  | nil => rw [hc] at hlk; simp [List.lookup] at hlk
  | cons a as =>
    rw [hc] at h1
    simp [verify_geometry, h1]

/-- Witness for C10 at a concrete metric missing from the tolerance map. -/
theorem default_tolerance_metric_witness :
    geometryScores [] [("m", (⟨1, 0, 1, 1⟩ : MetricStats))] [("m", 1)] =
      .ok (max 0 (1 - |(1 : ℚ) - 1| / (1 * (1/10))) :: []) :=
  (default_tolerance_metric [] [] [("m", 1)] "m" ⟨1, 0, 1, 1⟩ 1 []
    rfl rfl (by norm_num) rfl).1

/-- A profile carrying all three categories whose single geometry metric
has stored mean `0`. -/
def zeroMeanProfile : Profile :=
  { geometry := [("m", ⟨0, 0, 0, 0⟩)]
    pose := some ⟨some ⟨0, 0, 0⟩, some ⟨0, 0, 0⟩, some ⟨0, 0, 0⟩⟩
    color := some ⟨(0, 0, 0), (0, 0, 0)⟩ }

/-- Live data equal to every stored mean of `zeroMeanProfile`. -/
def zeroMeanLive : LiveData :=
  { geometry := [("m", 0)]
    pose := some ⟨some 0, some 0, some 0⟩
    color := some (0, 0, 0) }

/-- C1 counterexample: all three categories are present on both sides and
the live data equals every stored mean, yet `verify_biometric` does not
return ACCEPT with overall score 1.0 — the geometry metric's tolerance
denominator `mean * 0.1 = 0` makes the plain-Python division raise
`ZeroDivisionError`.  (`verify_color` is never reached, so the `norm3` and
`sqrt3` instantiations are immaterial.) -/
theorem verify_zero_mean_raises :
    verify_biometric (fun _ => 0) 2 defaultTolerances
      (some zeroMeanProfile) (some zeroMeanLive) = .error .zeroDivision := by
  have hg : geometryScores defaultTolerances [("m", (⟨0, 0, 0, 0⟩ : MetricStats))]
      [("m", (0 : ℚ))] = .error .zeroDivision := by
    simp [geometryScores, pydiv, defaultTolerances]
  simp [verify_biometric, verify_geometry, zeroMeanProfile, zeroMeanLive, hg]

/-- The geometry scoring loop succeeds whenever every scored metric has a
nonvanishing tolerance denominator. -/
theorem geometryScores_ok (thr : List (String × ℚ))
    (prof : List (String × MetricStats)) (cur : List (String × ℚ))
    (h : ∀ m st cv, (m, st) ∈ prof → cur.lookup m = some cv →
        st.mean * ((thr.lookup m).getD (1/10)) ≠ 0) :
    ∃ l, geometryScores thr prof cur = .ok l := by
  induction prof with
  | nil => exact ⟨[], rfl⟩
  | cons p rest ih =>
    obtain ⟨m, st⟩ := p
    obtain ⟨tl, htl⟩ := ih (fun m' st' cv' hm hc => h m' st' cv' (List.mem_cons_of_mem _ hm) hc)
    cases hcv : cur.lookup m with
    | none => exact ⟨tl, by simp [geometryScores, hcv, htl]⟩
    | some cv =>
      obtain ⟨ha, hb⟩ := mul_ne_zero_iff.mp (h m st cv (List.mem_cons_self _ _) hcv)
      rw [one_div] at hb
      exact ⟨_, by simp [geometryScores, hcv, pydiv, ha, hb, htl]; rfl⟩

/-- When every profile metric is present in the live data with exactly the
stored mean (and no denominator vanishes), every per-metric score is `1`. -/
theorem geometryScores_exact (thr : List (String × ℚ))
    (prof : List (String × MetricStats)) (cur : List (String × ℚ))
    (hall : ∀ m st, (m, st) ∈ prof → cur.lookup m = some st.mean)
    (hden : ∀ m st, (m, st) ∈ prof → st.mean * ((thr.lookup m).getD (1/10)) ≠ 0) :
    geometryScores thr prof cur = .ok (List.replicate prof.length 1) := by
  induction prof with
  | nil => rfl
  | cons p rest ih =>
    obtain ⟨m, st⟩ := p
    have h1 := hall m st (List.mem_cons_self _ _)
    have h2 := hden m st (List.mem_cons_self _ _)
    have ih' := ih (fun m' st' hm => hall m' st' (List.mem_cons_of_mem _ hm))
      (fun m' st' hm => hden m' st' (List.mem_cons_of_mem _ hm))
    obtain ⟨ha, hb⟩ := mul_ne_zero_iff.mp h2
    rw [one_div] at hb
    simp [geometryScores, h1, pydiv, ha, hb, ih', List.replicate, max_eq_right zero_le_one]

/-- The mean of `n ≥ 1` copies of `1` is `1`. -/
theorem meanQ_replicate_one (n : ℕ) (h : n ≠ 0) :
    meanQ (List.replicate n 1) = 1 := by
  simp [meanQ, List.sum_replicate]
  rw [div_self]
  exact_mod_cast h

/-- The pose scoring loop succeeds whenever every axis has a configured,
nonzero tolerance. -/
theorem poseScores_ok (thr : List (String × ℚ)) (pp : PoseProfile) (cp : PoseCurrent)
    (axes : List String)
    (h : ∀ a ∈ axes, ∃ t, thr.lookup a = some t ∧ t ≠ 0) :
    ∃ l, poseScores thr pp cp axes = .ok l := by
  induction axes with
  | nil => exact ⟨[], rfl⟩
  | cons a rest ih =>
    obtain ⟨tl, htl⟩ := ih (fun a' ha' => h a' (List.mem_cons_of_mem _ ha'))
    obtain ⟨t, hta, htz⟩ := h a (List.mem_cons_self _ _)
    cases hc : cp.axis a with
    | none => exact ⟨tl, by simp [poseScores, hc, htl]⟩
    | some cv =>
      cases hpa : pp.axis a with
      | none => exact ⟨tl, by simp [poseScores, hc, hpa, htl]⟩
      | some st => exact ⟨_, by simp [poseScores, hc, hpa, hta, pydiv, htz, htl]; rfl⟩

/-- Exact-match pose scoring: aligned axes all score `1`, and the score
list is nonempty as soon as some listed axis is present in the profile. -/
theorem poseScores_exact (thr : List (String × ℚ)) (pp : PoseProfile) (cp : PoseCurrent)
    (axes : List String)
    (hth : ∀ a ∈ axes, ∃ t, thr.lookup a = some t ∧ t ≠ 0)
    (hal : ∀ a st, a ∈ axes → pp.axis a = some st → cp.axis a = some st.mean) :
    ∃ l, poseScores thr pp cp axes = .ok l ∧ (∀ x ∈ l, x = 1) ∧
      ((∃ a ∈ axes, (pp.axis a).isSome) → l ≠ []) := by
  induction axes with
  | nil =>
    refine ⟨[], rfl, by simp, ?_⟩
    rintro ⟨a, ha, -⟩
    exact absurd ha (List.not_mem_nil a)
  | cons a rest ih =>
    obtain ⟨tl, htl, hones, hne⟩ :=
      ih (fun a' ha' => hth a' (List.mem_cons_of_mem _ ha'))
        (fun a' st' ha' hpa => hal a' st' (List.mem_cons_of_mem _ ha') hpa)
    obtain ⟨t, hta, htz⟩ := hth a (List.mem_cons_self _ _)
    cases hpa : pp.axis a with
    | none =>
      cases hc : cp.axis a with
      | none =>
        refine ⟨tl, by simp [poseScores, hc, htl], hones, ?_⟩
        rintro ⟨a', ha', hsome⟩
        rcases List.mem_cons.mp ha' with rfl | ha'
        · rw [hpa] at hsome; exact absurd hsome (by simp)
        · exact hne ⟨a', ha', hsome⟩
      | some cv =>
        refine ⟨tl, by simp [poseScores, hc, hpa, htl], hones, ?_⟩
        rintro ⟨a', ha', hsome⟩
        rcases List.mem_cons.mp ha' with rfl | ha'
        · rw [hpa] at hsome; exact absurd hsome (by simp)
        · exact hne ⟨a', ha', hsome⟩
    | some st =>
      have hc : cp.axis a = some st.mean := hal a st (List.mem_cons_self _ _) hpa
      have hone : max 0 (1 - |st.mean - st.mean| / t) = 1 := by
        rw [sub_self, abs_zero, zero_div, sub_zero, max_eq_right zero_le_one]
      refine ⟨1 :: tl, ?_, ?_, by simp⟩
      · simp [poseScores, hc, hpa, hta, pydiv, htz, htl, hone]
      · intro x hx
        rcases List.mem_cons.mp hx with rfl | hx
        · rfl
        · exact hones x hx

/-- A list of ones has mean `1`. -/
theorem meanQ_all_ones (l : List ℚ) (h1 : ∀ x ∈ l, x = 1) (h2 : l ≠ []) :
    meanQ l = 1 := by
  rw [List.eq_replicate_of_mem h1, meanQ_replicate_one]
  simpa using h2

/-- C1 (amended): under the default tolerance map, if all three categories
are present on both sides and — as the unchecked Python division forces us
to assume — every geometry metric shared by profile and live data has
`mean × tolerance ≠ 0`, then (a) `verify_biometric` returns a scored
verdict whose ACCEPT flag holds iff the overall score (the mean of the
three category scores) is at least `0.8`, and (b) when the live data
equals the stored means (every profile geometry metric present with its
mean value, every profile pose axis present with its mean, live color
equal to the stored mean color), the overall score is `1` and the decision
is ACCEPT.  Without the nonvanishing-denominator proviso the call raises
`ZeroDivisionError` instead (see the counterexample). -/
theorem verify_overall_threshold (norm3 : Vec3 → ℚ) (sqrt3 : ℚ)
    (p : Profile) (c : LiveData)
    (hpg : p.geometry ≠ []) (hcg : c.geometry ≠ [])
    (hpp : poseFalsyP p.pose = false) (hcp : poseFalsyC c.pose = false)
    (hpc : p.color.isSome = true) (hcc : c.color.isSome = true)
    (hden : ∀ m st cv, (m, st) ∈ p.geometry → c.geometry.lookup m = some cv →
        st.mean * ((defaultTolerances.lookup m).getD (1/10)) ≠ 0) :
    (∃ a ov g ps cl,
        verify_biometric norm3 sqrt3 defaultTolerances (some p) (some c) =
          .ok (.scored a ov g ps cl) ∧ (a = true ↔ 4/5 ≤ ov))
    ∧ ((∀ m st, (m, st) ∈ p.geometry → c.geometry.lookup m = some st.mean) →
       (∀ P C, p.pose = some P → c.pose = some C →
          ∀ a st, P.axis a = some st → C.axis a = some st.mean) →
       (∀ cs v, p.color = some cs → c.color = some v → v = cs.mean) →
       norm3 (0, 0, 0) = 0 → sqrt3 ≠ 0 →
       verify_biometric norm3 sqrt3 defaultTolerances (some p) (some c) =
         .ok (.scored true 1 1 1 1)) := by
  obtain ⟨P, hPp⟩ : ∃ P, p.pose = some P := by
    cases hp : p.pose with
    | none => rw [hp] at hpp; simp [poseFalsyP] at hpp
    | some P => exact ⟨P, rfl⟩
  obtain ⟨C, hCc⟩ : ∃ C, c.pose = some C := by
    cases hp : c.pose with
    | none => rw [hp] at hcp; simp [poseFalsyC] at hcp
    | some C => exact ⟨C, rfl⟩
  obtain ⟨cs, hcsE⟩ := Option.isSome_iff_exists.mp hpc
  obtain ⟨v, hvE⟩ := Option.isSome_iff_exists.mp hcc
  have hie1 : p.geometry.isEmpty = false := List.isEmpty_eq_false.mpr hpg
  have hie2 : c.geometry.isEmpty = false := List.isEmpty_eq_false.mpr hcg
  have hthax : ∀ a ∈ ["pitch", "yaw", "roll"],
      ∃ t, defaultTolerances.lookup a = some t ∧ t ≠ 0 := by
    intro a ha
    simp only [List.mem_cons, List.not_mem_nil, or_false] at ha
    rcases ha with rfl | rfl | rfl
    · exact ⟨15, rfl, by norm_num⟩
    · exact ⟨15, rfl, by norm_num⟩
    · exact ⟨15, rfl, by norm_num⟩
  have hppP : poseFalsyP (some P) = false := by rw [← hPp]; exact hpp
  have hcpC : poseFalsyC (some C) = false := by rw [← hCc]; exact hcp
  constructor
  · obtain ⟨gl, hgl⟩ := geometryScores_ok defaultTolerances p.geometry c.geometry hden
    obtain ⟨pl, hpl⟩ := poseScores_ok defaultTolerances P C _ hthax
    have hG : verify_geometry defaultTolerances p.geometry c.geometry =
        .ok ⟨if gl.isEmpty then 0 else meanQ gl,
             (p.geometry.map (fun q => q.1)).zip gl, false⟩ := by
      unfold verify_geometry
      simp [hie1, hie2, hgl]
    have hP : verify_pose defaultTolerances p.pose c.pose =
        .ok ⟨if pl.isEmpty then 0 else meanQ pl, false⟩ := by
      rw [hPp, hCc]
      unfold verify_pose
      simp [hppP, hcpC, hpl]
    have hC : verify_color norm3 sqrt3 defaultTolerances p.color c.color =
        .ok ⟨if (25 : ℚ) * sqrt3 = 0 then 0
             else max 0 (1 - norm3 (vsub v cs.mean) / (25 * sqrt3)), false⟩ := by
      rw [hcsE, hvE]; rfl
    have heq : verify_biometric norm3 sqrt3 defaultTolerances (some p) (some c) =
        .ok (.scored
          (decide (4/5 ≤ meanQ [(if gl.isEmpty then 0 else meanQ gl),
            (if pl.isEmpty then 0 else meanQ pl),
            (if (25 : ℚ) * sqrt3 = 0 then 0
             else max 0 (1 - norm3 (vsub v cs.mean) / (25 * sqrt3)))]))
          (meanQ [(if gl.isEmpty then 0 else meanQ gl),
            (if pl.isEmpty then 0 else meanQ pl),
            (if (25 : ℚ) * sqrt3 = 0 then 0
             else max 0 (1 - norm3 (vsub v cs.mean) / (25 * sqrt3)))])
          (if gl.isEmpty then 0 else meanQ gl)
          (if pl.isEmpty then 0 else meanQ pl)
          (if (25 : ℚ) * sqrt3 = 0 then 0
           else max 0 (1 - norm3 (vsub v cs.mean) / (25 * sqrt3)))) := by
      simp only [verify_biometric]
      rw [hG, hP, hC]
    exact ⟨_, _, _, _, _, heq, by simp [decide_eq_true_eq]⟩
  · intro hex hpose hcol hn0 hs3
    have hallden : ∀ m st, (m, st) ∈ p.geometry →
        st.mean * ((defaultTolerances.lookup m).getD (1/10)) ≠ 0 :=
      fun m st hm => hden m st st.mean hm (hex m st hm)
    have hgex := geometryScores_exact defaultTolerances p.geometry c.geometry hex hallden
    have hlen : p.geometry.length ≠ 0 := fun h0 => hpg (List.length_eq_zero.mp h0)
    have hrep_ne : (List.replicate p.geometry.length (1 : ℚ)) ≠ [] := by
      intro h0
      exact hlen (by simpa using congrArg List.length h0)
    have hG : verify_geometry defaultTolerances p.geometry c.geometry =
        .ok ⟨1, (p.geometry.map (fun q => q.1)).zip
              (List.replicate p.geometry.length 1), false⟩ := by
      unfold verify_geometry
      simp [hie1, hie2, hgex, List.isEmpty_eq_false.mpr hrep_ne,
        meanQ_replicate_one _ hlen]
    obtain ⟨pl, hpl, hones, hne⟩ := poseScores_exact defaultTolerances P C _ hthax
      (fun a st _ hpa => hpose P C hPp hCc a st hpa)
    have hax : ∃ a ∈ ["pitch", "yaw", "roll"], (P.axis a).isSome := by
      cases h1 : P.pitch with
      | some st => exact ⟨"pitch", by simp, by simp [PoseProfile.axis, h1]⟩
      | none =>
        cases h2 : P.yaw with
        | some st => exact ⟨"yaw", by simp, by simp [PoseProfile.axis, h2]⟩
        | none =>
          cases h3 : P.roll with
          | some st => exact ⟨"roll", by simp, by simp [PoseProfile.axis, h3]⟩
          | none => simp [poseFalsyP, h1, h2, h3] at hppP
    have hplne := hne hax
    have hP : verify_pose defaultTolerances p.pose c.pose = .ok ⟨1, false⟩ := by
      rw [hPp, hCc]
      unfold verify_pose
      simp [hppP, hcpC, hpl, List.isEmpty_eq_false.mpr hplne,
        meanQ_all_ones pl hones hplne]
    have hvc : vsub v cs.mean = (0, 0, 0) := by
      rw [hcol cs v hcsE hvE]
      simp [vsub]
    have hdnz : (25 : ℚ) * sqrt3 ≠ 0 := mul_ne_zero (by norm_num) hs3
    have hC : verify_color norm3 sqrt3 defaultTolerances p.color c.color =
        .ok ⟨1, false⟩ := by
      rw [hcsE, hvE]
      have hred : verify_color norm3 sqrt3 defaultTolerances (some cs) (some v) =
          .ok ⟨if (25 : ℚ) * sqrt3 = 0 then 0
               else max 0 (1 - norm3 (vsub v cs.mean) / (25 * sqrt3)), false⟩ := rfl
      rw [hred, hvc, hn0, if_neg hdnz, zero_div, sub_zero, max_eq_right zero_le_one]
    simp only [verify_biometric]
    rw [hG, hP, hC]
    show Except.ok (Verdict.scored (decide (4/5 ≤ meanQ [1, 1, 1])) (meanQ [1, 1, 1]) 1 1 1)
      = .ok (.scored true 1 1 1 1)
    have hm3 : meanQ [1, 1, 1] = (1 : ℚ) := by norm_num [meanQ]
    rw [hm3, show decide ((4 : ℚ)/5 ≤ 1) = true from decide_eq_true (by norm_num)]

/-- Witness for C1 (amended) at a concrete exact-match profile. -/
theorem verify_overall_threshold_witness :
    verify_biometric (fun _ => 0) 2 defaultTolerances
      (some ⟨[("m", ⟨10, 0, 10, 10⟩)],
             some ⟨some ⟨1, 0, 0⟩, some ⟨2, 0, 0⟩, some ⟨3, 0, 0⟩⟩,
             some ⟨(100, 100, 100), (0, 0, 0)⟩⟩)
      (some ⟨[("m", 10)], some ⟨some 1, some 2, some 3⟩, some (100, 100, 100)⟩) =
      .ok (.scored true 1 1 1 1) := by
  refine (verify_overall_threshold (fun _ => 0) 2 _ _
    (by simp) (by simp) (by simp [poseFalsyP]) (by simp [poseFalsyC])
    (by simp) (by simp) ?_).2 ?_ ?_ ?_ rfl (by norm_num)
  · intro m st cv hm hc
    simp only [List.mem_singleton, Prod.mk.injEq] at hm
    obtain ⟨rfl, rfl⟩ := hm
    show (10 : ℚ) * (1/10) ≠ 0
    norm_num
  · intro m st hm
    simp only [List.mem_singleton, Prod.mk.injEq] at hm
    obtain ⟨rfl, rfl⟩ := hm
    rfl
  · intro P C hP hC a st h
    cases hP; cases hC
    unfold PoseProfile.axis at h
    unfold PoseCurrent.axis
    split at h <;> first | exact Option.noConfusion h | (injection h with h2; subst h2; rfl)
  · intro cs v hcs hv
    cases hcs; cases hv
    rfl

/-! ## Theorems about the change gate -/

/-- C3: from the initial gate state, any first observation is admitted when
a positive capacity is configured — the landmark displacement is treated as
infinite (`float('inf')`) because no last-admitted set exists, and the
expression trigger is likewise forced. -/
theorem gate_first_observation {L : Type} (cfg : GateConfig) (num : GateNumerics L)
    (s : GateState L) (lm : L) (hp : Option Pose3) (now : ℚ)
    (hs : s = GateState.start) (hcap : 0 < cfg.maxStoredFrames) :
    calculate_landmark_change num lm s.lastLandmarks = ⊤ ∧
    should_save_frame cfg num s lm hp now = (true, ⟨some lm, hp, some now, 1⟩) := by
  subst hs
  refine ⟨rfl, ?_⟩
  unfold should_save_frame
  simp [GateState.start, gateTrigger, gateExprChanged, Nat.le_zero,
    Nat.pos_iff_ne_zero.mp hcap]

/-- The production gate configuration of `settings.py`. -/
def settingsGateConfig : GateConfig :=
  { minFrameInterval := 1/2
    maxStoredFrames := 100
    landmarkThreshold := 1/10
    expressionMetrics :=
      [("mouth_aspect_ratio", 1/5), ("eye_aspect_ratio", 3/20), ("eyebrow_position", 1/10)]
    posePitch := 15
    poseYaw := 15
    poseRoll := 15 }

/-- Degenerate numeric kernels over a unit landmark type, for concrete gate
runs. -/
def unitNumerics : GateNumerics Unit := ⟨fun _ _ => 0, fun _ _ _ => 0⟩

/-- Witness for C3: the very first observation is admitted under the
production configuration. -/
theorem gate_first_observation_witness :
    should_save_frame settingsGateConfig unitNumerics GateState.start () none 0 =
      (true, ⟨some (), none, some 0, 1⟩) :=
  (gate_first_observation settingsGateConfig unitNumerics GateState.start () none 0
    rfl (by decide)).2

/-- One gate step cannot push the admitted-frame count over the ceiling. -/
theorem gate_step_count {L : Type} (cfg : GateConfig) (num : GateNumerics L)
    (s : GateState L) (lm : L) (hp : Option Pose3) (now : ℚ)
    (h : s.frameCount ≤ cfg.maxStoredFrames) :
    (should_save_frame cfg num s lm hp now).2.frameCount ≤ cfg.maxStoredFrames := by
  unfold should_save_frame
  split_ifs with h1 h2 h3
  · exact h
  · exact h
  · exact Nat.succ_le_of_lt (Nat.lt_of_not_le h2)
  · exact h

/-- C4: an observation arriving within `MIN_FRAME_INTERVAL` of the last
admission is rejected with the state unchanged — whatever the landmark
displacement, since the rate limit is checked first; an observation hitting
a full gate (`frame_count ≥ MAX_STORED_FRAMES`) is likewise rejected; and
consequently the admitted-frame count never exceeds `MAX_STORED_FRAMES` in
any state reachable from the initial one. -/
theorem gate_rate_limit_and_capacity {L : Type} (cfg : GateConfig) (num : GateNumerics L) :
    (∀ (s : GateState L) (lm : L) (hp : Option Pose3) (now t0 : ℚ),
        s.lastSaveTime = some t0 → now - t0 < cfg.minFrameInterval →
        should_save_frame cfg num s lm hp now = (false, s))
    ∧ (∀ (s : GateState L) (lm : L) (hp : Option Pose3) (now : ℚ),
        cfg.maxStoredFrames ≤ s.frameCount →
        should_save_frame cfg num s lm hp now = (false, s))
    ∧ (∀ obs : List (L × Option Pose3 × ℚ),
        (runGate cfg num GateState.start obs).frameCount ≤ cfg.maxStoredFrames) := by
  refine ⟨?_, ?_, ?_⟩
  · intro s lm hp now t0 hlast htime
    unfold should_save_frame
    rw [hlast]
    simp [htime]
  · intro s lm hp now hcount
    unfold should_save_frame
    split_ifs with h1 <;> rfl
  · have inv : ∀ (obs : List (L × Option Pose3 × ℚ)) (s : GateState L),
        s.frameCount ≤ cfg.maxStoredFrames →
        (runGate cfg num s obs).frameCount ≤ cfg.maxStoredFrames := by
      intro obs
      induction obs with
      | nil => intro s h; exact h
      | cons o rest ih =>
        intro s h
        obtain ⟨lm, hp, t⟩ := o
        exact ih _ (gate_step_count cfg num s lm hp t h)
    intro obs
    exact inv obs GateState.start (Nat.zero_le _)

/-- Witness for C4: under the production thresholds, a second observation
0.1 s after an admission is rejected even with landmark displacement `1`
(ten times the threshold). -/
theorem gate_rate_limit_witness :
    should_save_frame settingsGateConfig ⟨fun _ _ => 1, fun _ _ _ => 0⟩
      (⟨some (), none, some 0, 1⟩ : GateState Unit) () none (1/10) =
      (false, ⟨some (), none, some 0, 1⟩) :=
  (gate_rate_limit_and_capacity settingsGateConfig ⟨fun _ _ => 1, fun _ _ _ => 0⟩).1
    ⟨some (), none, some 0, 1⟩ () none (1/10) 0 rfl (by norm_num [settingsGateConfig])

/-! ## Theorems about the geometry engine and the mesh -/

/-- Feature indices for a two-point degenerate contour. -/
def fiFlat : FeatureIndices := ⟨[0, 1], [0], [1], [0, 1], [0, 1], 0⟩

/-- Landmarks whose face-contour points share one y value (face height 0,
face width 1). -/
def lmFlat : ℕ → Vec3 := fun i => if i = 1 then (1, 0, 0) else (0, 0, 0)

/-- A fully degenerate landmark set: every point at the origin. -/
def lmZero : ℕ → Vec3 := fun _ => (0, 0, 0)

/-- C7 (failing input): the geometry engine has no denominator checks.  On
a landmark set whose contour is horizontal, `calculate_proportions` divides
the face width by a zero face height and `width_height_ratio` comes out
`inf`, not finite (the field does not depend on the abstract norm, so the
instantiation `fun _ => 0` is immaterial); and on an all-origin landmark
set, `roundness = 1 − std/mean` divides `0/0` and comes out `nan` (there
the instantiations `fun _ => 0` for the norm and the standard deviation
agree with the true kernels, which are applied only to zero vectors and to
the all-zero distance list). -/
theorem proportions_nonfinite_on_flat_contour :
    (calculate_proportions (fun _ => 0) fiFlat lmFlat).width_height_ratio = NpFloat.inf
    ∧ ((calculate_proportions (fun _ => 0) fiFlat lmFlat).width_height_ratio).isFinite
        = false
    ∧ (analyze_face_shape (fun _ => 0) (fun _ => 0) fiFlat lmZero).roundness
        = NpFloat.nan := by
  have hfw : faceWidth fiFlat lmFlat = 1 := by
    simp [faceWidth, fiFlat, lmFlat, pick, xsOf, npMax, npMin, max_def, min_def]
  have hfh : faceHeight fiFlat lmFlat = 0 := by
    simp [faceHeight, fiFlat, lmFlat, pick, ysOf, npMax, npMin, max_def, min_def]
  have h1 : (calculate_proportions (fun _ => 0) fiFlat lmFlat).width_height_ratio
      = NpFloat.inf := by
    simp [calculate_proportions, hfw, hfh, npDiv]
  refine ⟨h1, by rw [h1]; rfl, ?_⟩
  simp [analyze_face_shape, fiFlat, lmZero, pick, centroid, meanQ, npDiv, NpFloat.oneSub]

/-- C9 (failing input): on the degenerate (collinear) triangle
`(0,0,0), (1,1,1), (2,2,2)` the cross product is the zero vector, the area
is `0`, and `_calculate_face_metrics` still divides the cross product by
its zero norm, producing a `nan` normal silently.  The instantiation
`fun _ => 0` agrees with the Euclidean norm at the zero vector, the only
vector it is applied to here. -/
theorem degenerate_triangle_normal_nan :
    face_metric (fun _ => 0) (0, 0, 0) (1, 1, 1) (2, 2, 2) =
      { area := 0, normal := (NpFloat.nan, NpFloat.nan, NpFloat.nan) } := by
  norm_num [face_metric, vsub, cross, npDiv]

/-! ## Theorems about depth-map definedness -/

/-- Halfspaces `x + y ≤ r` of the grid plane are convex. -/
theorem convex_sum_le (r : ℚ) : Convex ℚ {w : Pt2 | w.1 + w.2 ≤ r} :=
  convex_halfSpace_le
    ⟨fun x y => by simp [Prod.fst_add, Prod.snd_add]; ring,
     fun c x => by simp [smul_eq_mul]; ring⟩ r

/-- Feature indices whose face contour is the triangle `0, 1, 2`. -/
def fiDepth : FeatureIndices := ⟨[0, 1, 2], [0], [1], [0, 1], [0, 1], 0⟩

/-- A depth mapper over an 8×8 capture frame. -/
def dmEx : DepthMapper := ⟨8, 8, fiDepth⟩

/-- A landmark set whose contour spans `(0,0), (8,0), (0,8)` and whose
landmark 400 (a non-contour, non-forehead point) sits at `(8,8)`, outside
the face-contour hull. -/
def lmDepth : ℕ → Pt2 := fun i =>
  if i = 400 then (8, 8) else if i = 1 then (8, 0) else if i = 2 then (0, 8) else (0, 0)

/-- C6 counterexample: at grid resolution `(2,2)` the cell `(3/2, 3/2)` is
defined in the returned depth map (the linear stage covers it: it lies in
the convex hull of the rescaled landmark scatter, between `(0,0)` and the
rescaled landmark 400 at `(2,2)`), yet it lies strictly outside the face
mask — and even outside the singly-rescaled face-contour hull — so the
claim "every cell strictly outside the face-contour convex hull is
undefined" fails: the mask only bounds the fill step and is never applied
to clear the linear interpolation. -/
theorem depth_defined_outside_mask :
    depthDefined dmEx 2 2 lmDepth 468 (3/2, 3/2)
    ∧ ¬ inMask dmEx 2 2 lmDepth (3/2, 3/2)
    ∧ ¬ inHull ((dmEx.fi.face_contour ++ foreheadIdx).map
        (fun i => scaleToGrid dmEx 2 2 (lmDepth i))) (3/2, 3/2) := by
  refine ⟨?_, ?_, ?_⟩
  · left
    show (((3 : ℚ)/2, (3 : ℚ)/2) : Pt2) ∈
      convexHull ℚ (ptSet (gridPoints dmEx 2 2 lmDepth 468))
    have h0 : (((0 : ℚ), (0 : ℚ)) : Pt2) ∈ ptSet (gridPoints dmEx 2 2 lmDepth 468) := by
      show _ ∈ gridPoints dmEx 2 2 lmDepth 468
      refine List.mem_map.mpr ⟨0, List.mem_range.mpr (by norm_num), ?_⟩
      norm_num [scaleToGrid, lmDepth, dmEx, Prod.ext_iff]
    have h4 : (((2 : ℚ), (2 : ℚ)) : Pt2) ∈ ptSet (gridPoints dmEx 2 2 lmDepth 468) := by
      show _ ∈ gridPoints dmEx 2 2 lmDepth 468
      refine List.mem_map.mpr ⟨400, List.mem_range.mpr (by norm_num), ?_⟩
      norm_num [scaleToGrid, lmDepth, dmEx, Prod.ext_iff]
    refine (convex_convexHull ℚ _).segment_subset
      (subset_convexHull ℚ _ h0) (subset_convexHull ℚ _ h4) ?_
    refine ⟨1/4, 3/4, by norm_num, by norm_num, by norm_num, ?_⟩
    simp only [Prod.ext_iff, Prod.smul_fst, Prod.smul_snd, Prod.fst_add, Prod.snd_add,
      smul_eq_mul]
    norm_num
  · intro hmem
    have hsub : ptSet (maskPolyPoints dmEx 2 2 lmDepth) ⊆
        {w : Pt2 | w.1 + w.2 ≤ 1/2} := by
      intro q hq
      have hql : q ∈ maskPolyPoints dmEx 2 2 lmDepth := hq
      obtain ⟨i, hi, rfl⟩ := List.mem_map.mp hql
      show _ + _ ≤ (1 : ℚ)/2
      fin_cases hi <;> norm_num [scaleToGrid, lmDepth, dmEx]
    have hle := convexHull_min hsub (convex_sum_le (1/2)) hmem
    norm_num at hle
  · intro hmem
    have hsub : ptSet ((dmEx.fi.face_contour ++ foreheadIdx).map
        (fun i => scaleToGrid dmEx 2 2 (lmDepth i))) ⊆
        {w : Pt2 | w.1 + w.2 ≤ 2} := by
      intro q hq
      have hql : q ∈ (dmEx.fi.face_contour ++ foreheadIdx).map
          (fun i => scaleToGrid dmEx 2 2 (lmDepth i)) := hq
      obtain ⟨i, hi, rfl⟩ := List.mem_map.mp hql
      show _ + _ ≤ (2 : ℚ)
      fin_cases hi <;> norm_num [scaleToGrid, lmDepth, dmEx]
    have hle := convexHull_min hsub (convex_sum_le 2) hmem
    norm_num at hle

/-- C6 (amended): the fill step defines every cell of the face mask (as
soon as any landmark exists), every cell of the grid-scaled face-contour
hull is defined already by the linear stage, and cells covered by neither
the scatter hull nor the mask stay undefined; but a cell outside the face
mask can still be defined whenever it lies in the hull of all rescaled
landmarks (see the counterexample), since the mask never clears the linear
interpolation — and the mask polygon itself lives at doubly-rescaled
coordinates. -/
theorem depth_mask_fill_coverage (d : DepthMapper) (resW resH : ℚ)
    (lm : ℕ → Pt2) (n : ℕ) :
    (∀ p : Pt2, inMask d resW resH lm p → 0 < n → depthDefined d resW resH lm n p)
    ∧ (∀ p : Pt2, (∀ i ∈ d.fi.face_contour, i < n) →
        inHull (d.fi.face_contour.map (fun i => scaleToGrid d resW resH (lm i))) p →
        depthDefined d resW resH lm n p)
    ∧ (∀ p : Pt2, ¬ linearDefined d resW resH lm n p → ¬ inMask d resW resH lm p →
        ¬ depthDefined d resW resH lm n p) := by
  refine ⟨fun p hm hn => Or.inr ⟨hm, hn⟩, ?_, ?_⟩
  · intro p hlt hp
    left
    show p ∈ convexHull ℚ (ptSet (gridPoints d resW resH lm n))
    refine convexHull_mono ?_ hp
    intro q hq
    have hql : q ∈ d.fi.face_contour.map (fun i => scaleToGrid d resW resH (lm i)) := hq
    obtain ⟨i, hi, rfl⟩ := List.mem_map.mp hql
    show _ ∈ gridPoints d resW resH lm n
    exact List.mem_map.mpr ⟨i, List.mem_range.mpr (hlt i hi), rfl⟩
  · intro p hl hm hd
    rcases hd with h | ⟨h, -⟩
    · exact hl h
    · exact hm h

/-- Witness for C6 (amended) at a concrete in-mask cell. -/
theorem depth_mask_fill_coverage_witness :
    depthDefined dmEx 2 2 lmDepth 468 (1/4, 0) := by
  refine (depth_mask_fill_coverage dmEx 2 2 lmDepth 468).1 (1/4, 0) ?_ (by norm_num)
  show ((1 : ℚ)/4, (0 : ℚ)) ∈ convexHull ℚ (ptSet (maskPolyPoints dmEx 2 2 lmDepth))
  have h0 : (((0 : ℚ), (0 : ℚ)) : Pt2) ∈ ptSet (maskPolyPoints dmEx 2 2 lmDepth) := by
    show _ ∈ maskPolyPoints dmEx 2 2 lmDepth
    refine List.mem_map.mpr ⟨0, by norm_num [fiDepth, dmEx, foreheadIdx], ?_⟩
    norm_num [scaleToGrid, lmDepth, dmEx, Prod.ext_iff]
  have h1 : (((1 : ℚ)/2, (0 : ℚ)) : Pt2) ∈ ptSet (maskPolyPoints dmEx 2 2 lmDepth) := by
    show _ ∈ maskPolyPoints dmEx 2 2 lmDepth
    refine List.mem_map.mpr ⟨1, by norm_num [fiDepth, dmEx, foreheadIdx], ?_⟩
    norm_num [scaleToGrid, lmDepth, dmEx, Prod.ext_iff]
  refine (convex_convexHull ℚ _).segment_subset
    (subset_convexHull ℚ _ h0) (subset_convexHull ℚ _ h1) ?_
  refine ⟨1/2, 1/2, by norm_num, by norm_num, by norm_num, ?_⟩
  simp only [Prod.ext_iff, Prod.smul_fst, Prod.smul_snd, Prod.fst_add, Prod.snd_add,
    smul_eq_mul]
  norm_num

end Biometric
